import Mathlib

/-!
Verification of the rate-control core of qBit Smart Limit.

The Python source (src/qsl/utils.py, src/qsl/core.py) is shallowly embedded:
Python floats are modelled as exact rationals (`ℚ`), Python ints as `ℤ`
(Python ints are unbounded, so no wrap-around is needed), Python `//` as
`Int.fdiv` (floor division) and `int(...)` truncation toward zero as `pyInt`.
Mutable objects become explicit state records with pure update functions.
-/

namespace QSL

/-! ## Constants (class `C` in src/qsl/utils.py) -/

def SPEED_LIMIT : ℚ := 50 * 1024 * 1024

def MIN_LIMIT : ℤ := 4096

def MAX_REANNOUNCE : ℚ := 86400

def FINISH_TIME : ℚ := 30

def STEADY_TIME : ℚ := 120

def KALMAN_Q_SPEED : ℚ := 0.1

def KALMAN_Q_ACCEL : ℚ := 0.05

def KALMAN_R : ℚ := 0.5

def DL_LIMIT_MIN_TIME : ℤ := 20

def DL_LIMIT_BUFFER : ℚ := 30

def DL_LIMIT_MIN : ℤ := 512

def DL_LIMIT_ADJUST_BUFFER : ℚ := 60

def REANNOUNCE_MIN_INTERVAL : ℚ := 900

def REANNOUNCE_SPEED_SAMPLES : ℚ := 300

def ANNOUNCE_INTERVAL_NEW : ℤ := 1800

def ANNOUNCE_INTERVAL_WEEK : ℤ := 2700

def ANNOUNCE_INTERVAL_OLD : ℤ := 3600

/-- `C.QUANT_STEPS` dictionary together with the `.get(phase, 1024)` default. -/
def QUANT_STEPS (phase : String) : ℤ :=
  if phase = "finish" then 256
  else if phase = "steady" then 512
  else if phase = "catch" then 2048
  else if phase = "warmup" then 4096
  else 1024

/-! ## Utility functions (src/qsl/utils.py) -/

/-- `safe_div` from src/qsl/utils.py lines 131-135.  Over `ℚ` the `try`
wrapper is not needed: the only exception the Python body can raise is a
zero division, which the guard already excludes. -/
def safe_div (a b default : ℚ) : ℚ :=
  if b = 0 ∨ |b| < 1e-10 then default else a / b

/-- `clamp` from src/qsl/utils.py lines 138-139. -/
def clamp (value min_val max_val : ℚ) : ℚ :=
  max min_val (min max_val value)

/-- Python `int(x)` applied to a float: truncation toward zero. -/
def pyInt (q : ℚ) : ℤ := if 0 ≤ q then ⌊q⌋ else ⌈q⌉

theorem clamp_bounds (v lo hi : ℚ) (h : lo ≤ hi) :
    lo ≤ clamp v lo hi ∧ clamp v lo hi ≤ hi := by
  constructor
  · exact le_max_left _ _
  · exact max_le h (min_le_left _ _)

/-! ## Kalman filter (`ExtendedKalman`, src/qsl/core.py lines 62-100) -/

structure KalmanState where
  speed : ℚ
  accel : ℚ
  p00 : ℚ
  p01 : ℚ
  p10 : ℚ
  p11 : ℚ
  last_time : ℚ
  initialized : Bool

def kalmanInit : KalmanState :=
  { speed := 0, accel := 0, p00 := 1000, p01 := 0, p10 := 0, p11 := 1000,
    last_time := 0, initialized := false }

/-- `ExtendedKalman.update` (src/qsl/core.py lines 68-93).  The local `s`
of the source (`s = p00_pred + C.KALMAN_R`) is named `sInnov` here.  The
Python guard `abs(s) < 1e-10` short-circuits the correction step. -/
def kalmanUpdate (st : KalmanState) (measurement now : ℚ) : KalmanState × (ℚ × ℚ) :=
  if st.initialized = false then
    ({ st with speed := measurement, last_time := now, initialized := true },
     (measurement, 0))
  else
    let dt := now - st.last_time
    if dt ≤ 0.01 then (st, (st.speed, st.accel))
    else
      let pred_speed := st.speed + st.accel * dt
      let p00_pred := st.p00 + dt * (st.p10 + st.p01) + dt * dt * st.p11 + KALMAN_Q_SPEED
      let p01_pred := st.p01 + dt * st.p11
      let p10_pred := st.p10 + dt * st.p11
      let p11_pred := st.p11 + KALMAN_Q_ACCEL
      let sInnov := p00_pred + KALMAN_R
      if |sInnov| < 1e-10 then ({ st with last_time := now }, (st.speed, st.accel))
      else
        let k0 := p00_pred / sInnov
        let k1 := p10_pred / sInnov
        let innovation := measurement - pred_speed
        let speed := pred_speed + k0 * innovation
        let accel := st.accel + k1 * innovation
        ({ st with last_time := now, speed := speed, accel := accel,
                   p00 := (1 - k0) * p00_pred, p01 := (1 - k0) * p01_pred,
                   p10 := -k1 * p00_pred + p10_pred, p11 := -k1 * p01_pred + p11_pred },
         (speed, accel))

/-- `ExtendedKalman.reset` (src/qsl/core.py lines 98-100). -/
def kalmanReset (st : KalmanState) : KalmanState :=
  { st with speed := 0, accel := 0, p00 := 1000, p01 := 0, p10 := 0, p11 := 1000,
            initialized := false }

/-! ## PID controller (`PIDController`, src/qsl/core.py lines 21-56) -/

structure PIDState where
  kp : ℚ
  ki : ℚ
  kd : ℚ
  integral : ℚ
  last_error : ℚ
  last_time : ℚ
  last_output : ℚ
  initialized : Bool
  integral_limit : ℚ
  derivative_filter : ℚ

/-- `PIDController.__init__` (src/qsl/core.py lines 22-26). -/
def pidInit : PIDState :=
  { kp := 0.6, ki := 0.15, kd := 0.08, integral := 0, last_error := 0,
    last_time := 0, last_output := 1, initialized := false,
    integral_limit := 0.3, derivative_filter := 0 }

/-- `PIDController.update` (src/qsl/core.py lines 32-52). -/
def pidUpdate (st : PIDState) (setpoint measured now : ℚ) : PIDState × ℚ :=
  let error := safe_div (setpoint - measured) (max setpoint 1) 0
  if st.initialized = false then
    ({ st with last_error := error, last_time := now, initialized := true }, 1)
  else
    let dt := now - st.last_time
    if dt ≤ 0.01 then (st, st.last_output)
    else
      let p_term := st.kp * error
      let integral := clamp (st.integral + error * dt) (-st.integral_limit) st.integral_limit
      let i_term := st.ki * integral
      let raw_derivative := (error - st.last_error) / dt
      let derivative_filter := 0.3 * raw_derivative + 0.7 * st.derivative_filter
      let d_term := st.kd * derivative_filter
      let output := clamp (1 + p_term + i_term + d_term) 0.5 2
      ({ st with last_time := now, integral := integral,
                 derivative_filter := derivative_filter, last_error := error,
                 last_output := output },
       output)

/-- A sequence of `update` calls, returning the final controller state and
the list of returned outputs in call order.  Each call is a triple
`(setpoint, measured, now)`. -/
def runPID : PIDState → List (ℚ × ℚ × ℚ) → PIDState × List ℚ
  | st, [] => (st, [])
  | st, c :: cs =>
    let r := pidUpdate st c.1 c.2.1 c.2.2
    let rest := runPID r.1 cs
    (rest.1, r.2 :: rest.2)

/-- Invariant maintained by `pidUpdate`: the stored last output is within
the clamp range, and before the first call it is exactly 1. -/
def PIDInv (st : PIDState) : Prop :=
  0.5 ≤ st.last_output ∧ st.last_output ≤ 2 ∧
    (st.initialized = false → st.last_output = 1)

theorem pidInit_inv : PIDInv pidInit := by
  refine ⟨by norm_num [pidInit], by norm_num [pidInit], fun _ => rfl⟩

theorem pidUpdate_inv (st : PIDState) (sp m now : ℚ) (h : PIDInv st) :
    PIDInv (pidUpdate st sp m now).1 ∧
    (pidUpdate st sp m now).1.last_output = (pidUpdate st sp m now).2 ∧
    (pidUpdate st sp m now).1.initialized = true ∧
    0.5 ≤ (pidUpdate st sp m now).2 ∧ (pidUpdate st sp m now).2 ≤ 2 := by
  obtain ⟨h1, h2, h3⟩ := h
  unfold pidUpdate
  dsimp only
  split_ifs with hinit hdt
  · exact ⟨⟨h1, h2, by simp⟩, h3 hinit, rfl, by norm_num, by norm_num⟩
  · have hi' : st.initialized = true := by
      revert hinit; cases st.initialized <;> simp
    exact ⟨⟨h1, h2, by rw [hi']; simp⟩, rfl, hi', h1, h2⟩
  · have hi' : st.initialized = true := by
      revert hinit; cases st.initialized <;> simp
    exact ⟨⟨(clamp_bounds _ _ _ (by norm_num)).1, (clamp_bounds _ _ _ (by norm_num)).2,
            by rw [hi']; simp⟩,
           rfl, hi', (clamp_bounds _ _ _ (by norm_num)).1, (clamp_bounds _ _ _ (by norm_num)).2⟩

theorem runPID_append (st : PIDState) (l1 l2 : List (ℚ × ℚ × ℚ)) :
    runPID st (l1 ++ l2) =
      ((runPID (runPID st l1).1 l2).1,
        (runPID st l1).2 ++ (runPID (runPID st l1).1 l2).2) := by
  induction l1 generalizing st with
  | nil => simp [runPID]
  | cons c cs ih => simp [runPID, ih]

theorem runPID_inv (calls : List (ℚ × ℚ × ℚ)) :
    PIDInv (runPID pidInit calls).1 ∧
    (∀ o ∈ (runPID pidInit calls).2, 0.5 ≤ o ∧ o ≤ 2) ∧
    (∀ v, (runPID pidInit calls).2.getLast? = some v →
      (runPID pidInit calls).1.initialized = true ∧
      (runPID pidInit calls).1.last_output = v) := by
  induction calls using List.reverseRecOn with
  | nil =>
    refine ⟨pidInit_inv, by simp [runPID], ?_⟩
    intro v hv; simp [runPID] at hv
  | append_singleton l a ih =>
    obtain ⟨ih1, ih2, _⟩ := ih
    have hu := pidUpdate_inv (runPID pidInit l).1 a.1 a.2.1 a.2.2 ih1
    rw [runPID_append]
    refine ⟨?_, ?_, ?_⟩
    · simpa [runPID] using hu.1
    · intro o ho
      simp only [runPID, List.mem_append, List.mem_cons, List.not_mem_nil, or_false] at ho
      rcases ho with ho | ho
      · exact ih2 o ho
      · rw [ho]; exact ⟨hu.2.2.2.1, hu.2.2.2.2⟩
    · intro v hv
      simp only [runPID, List.getLast?_concat, Option.some.injEq] at hv
      exact ⟨by simpa [runPID] using hu.2.2.1, by rw [← hv]; simpa [runPID] using hu.2.1⟩

/-- Guarded call: once initialized, a call within the minimum time delta
returns the stored last output and leaves the state unchanged. -/
theorem pidUpdate_guard (st : PIDState) (sp m now : ℚ)
    (hinit : st.initialized = true) (hdt : now - st.last_time ≤ 0.01) :
    pidUpdate st sp m now = (st, st.last_output) := by
  simp [pidUpdate, hinit, hdt]

/-- C1: over every sequence of `PIDController.update` calls starting from a
fresh controller, every returned output lies in `[0.5, 2.0]`; and a further
call within the minimum time delta (`dt ≤ 0.01`) of the stored time
reference returns exactly the value returned by the previous call (the last
element of the output list). -/
theorem pid_output_bounds_and_min_dt (calls : List (ℚ × ℚ × ℚ)) (c : ℚ × ℚ × ℚ) :
    (∀ o ∈ (runPID pidInit calls).2, 0.5 ≤ o ∧ o ≤ 2) ∧
    (∀ v, (runPID pidInit calls).2.getLast? = some v →
      c.2.2 - (runPID pidInit calls).1.last_time ≤ 0.01 →
      (pidUpdate (runPID pidInit calls).1 c.1 c.2.1 c.2.2).2 = v) := by
  obtain ⟨_, h2, h3⟩ := runPID_inv calls
  refine ⟨h2, ?_⟩
  intro v hv hdt
  obtain ⟨hinit, hlast⟩ := h3 v hv
  rw [pidUpdate_guard _ _ _ _ hinit hdt]
  exact hlast

theorem pid_output_bounds_and_min_dt_witness :
    (∀ o ∈ (runPID pidInit [((10 : ℚ), (5 : ℚ), (100 : ℚ))]).2, 0.5 ≤ o ∧ o ≤ 2) ∧
    (pidUpdate (runPID pidInit [((10 : ℚ), (5 : ℚ), (100 : ℚ))]).1 10 5 (100 + 1/200)).2 = 1 := by
  have h := pid_output_bounds_and_min_dt [((10 : ℚ), (5 : ℚ), (100 : ℚ))] (10, 5, 100 + 1/200)
  refine ⟨h.1, h.2 1 (by simp [runPID, pidUpdate, pidInit]) ?_⟩
  norm_num [runPID, pidUpdate, pidInit]

/-- C6: `safe_div(a, b, default)` returns `default` when `b = 0` or
`|b| < 1e-10`, and returns `a / b` otherwise, for all rationals `a`. -/
theorem safe_div_spec (a b d : ℚ) :
    (b = 0 ∨ |b| < 1e-10 → safe_div a b d = d) ∧
    (¬(b = 0 ∨ |b| < 1e-10) → safe_div a b d = a / b) := by
  constructor
  · intro h; simp only [safe_div, if_pos h]
  · intro h; simp only [safe_div, if_neg h]

theorem safe_div_spec_witness :
    safe_div 1 0 7 = 7 ∧ safe_div 6 2 7 = 3 := by
  constructor
  · exact (safe_div_spec 1 0 7).1 (Or.inl rfl)
  · have h := (safe_div_spec 6 2 7).2 (by norm_num)
    rw [h]; norm_num

/-- C8: the first `ExtendedKalman.update` after initialization or after
`reset` returns exactly the pair `(m, 0.0)`, for every measurement `m`
and timestamp `t0`. -/
theorem kalman_first_update (st : KalmanState) (m t0 : ℚ) :
    (kalmanUpdate kalmanInit m t0).2 = (m, 0) ∧
    (kalmanUpdate (kalmanReset st) m t0).2 = (m, 0) := by
  constructor
  · simp [kalmanUpdate, kalmanInit]
  · simp [kalmanUpdate, kalmanReset]

/-! ## Adaptive quantizer (`AdaptiveQuantizer.quantize`, src/qsl/core.py lines 143-158) -/

/-- Step-size computation of `AdaptiveQuantizer.quantize`
(src/qsl/core.py lines 147-157).  Python `step // 2` is floor division
(`Int.fdiv`); `int(clamp(step, 256, 8192))` on integers is
`max 256 (min 8192 step)`. -/
def quantStep (phase : String) (current_speed target trend : ℚ) : ℤ :=
  let base := QUANT_STEPS phase
  let ratio := safe_div current_speed target 1
  let step : ℤ :=
    if phase = "finish" then 256
    else if ratio > 1.2 then base * 2
    else if ratio > 1.05 then base
    else if ratio > 0.8 then Int.fdiv base 2
    else base
  let step := if |trend| > 0.1 then max 256 (Int.fdiv step 2) else step
  max 256 (min 8192 step)

/-- `AdaptiveQuantizer.quantize` (src/qsl/core.py lines 144-158). -/
def quantize (limit : ℤ) (phase : String) (current_speed target trend : ℚ) : ℤ :=
  if limit ≤ 0 then limit
  else
    let step := quantStep phase current_speed target trend
    max MIN_LIMIT (Int.fdiv (limit + Int.fdiv step 2) step * step)

theorem quantStep_bounds (p : String) (cs t tr : ℚ) :
    256 ≤ quantStep p cs t tr ∧ quantStep p cs t tr ≤ 8192 := by
  unfold quantStep
  dsimp only
  exact ⟨le_max_left _ _, max_le (by norm_num) (min_le_left _ _)⟩

theorem quantize_pos_eq (limit : ℤ) (p : String) (cs t tr : ℚ) (h : 0 < limit) :
    quantize limit p cs t tr =
      max MIN_LIMIT (Int.fdiv (limit + Int.fdiv (quantStep p cs t tr) 2)
        (quantStep p cs t tr) * quantStep p cs t tr) := by
  rw [quantize, if_neg (not_le.mpr h)]

/-- Rounding a multiple of the step returns it unchanged. -/
theorem round_multiple (s k : ℤ) (hs : 0 < s) :
    Int.fdiv (k * s + Int.fdiv s 2) s * s = k * s := by
  have h2 : 0 ≤ Int.fdiv s 2 := Int.fdiv_nonneg hs.le (by norm_num)
  have h3 : Int.fdiv s 2 < s := by
    rw [Int.fdiv_eq_ediv s (by norm_num)]
    omega
  rw [Int.fdiv_eq_ediv _ hs.le, add_comm, Int.add_mul_ediv_right _ _ (ne_of_gt hs),
      Int.ediv_eq_zero_of_lt h2 h3]
  ring

/-- A multiple of the step that is at least the minimum limit is a fixed
point of `quantize`. -/
theorem quantize_fix_of_multiple (p : String) (cs t tr : ℚ) (k : ℤ)
    (h : MIN_LIMIT ≤ k * quantStep p cs t tr) :
    quantize (k * quantStep p cs t tr) p cs t tr = k * quantStep p cs t tr := by
  have hs : 0 < quantStep p cs t tr :=
    lt_of_lt_of_le (by norm_num) (quantStep_bounds p cs t tr).1
  have hpos : 0 < k * quantStep p cs t tr :=
    lt_of_lt_of_le (by norm_num [MIN_LIMIT]) h
  rw [quantize_pos_eq _ _ _ _ _ hpos, round_multiple _ _ hs]
  exact max_eq_right h

/-- Applying `quantize` twice lands in its fixed-point set: a third
application changes nothing. -/
theorem quantize_triple (limit : ℤ) (p : String) (cs t tr : ℚ) :
    quantize (quantize (quantize limit p cs t tr) p cs t tr) p cs t tr =
      quantize (quantize limit p cs t tr) p cs t tr := by
  by_cases h0 : limit ≤ 0
  · have hx : quantize limit p cs t tr = limit := by rw [quantize, if_pos h0]
    rw [hx, hx, hx]
  · push_neg at h0
    have hs : 0 < quantStep p cs t tr :=
      lt_of_lt_of_le (by norm_num) (quantStep_bounds p cs t tr).1
    rcases le_or_lt MIN_LIMIT
        (Int.fdiv (limit + Int.fdiv (quantStep p cs t tr) 2) (quantStep p cs t tr) *
          quantStep p cs t tr) with h4 | h4
    · have hq : quantize limit p cs t tr =
          Int.fdiv (limit + Int.fdiv (quantStep p cs t tr) 2) (quantStep p cs t tr) *
            quantStep p cs t tr := by
        rw [quantize_pos_eq _ _ _ _ _ h0]
        exact max_eq_right h4
      rw [hq, quantize_fix_of_multiple _ _ _ _ _ h4, quantize_fix_of_multiple _ _ _ _ _ h4]
    · have hq : quantize limit p cs t tr = MIN_LIMIT := by
        rw [quantize_pos_eq _ _ _ _ _ h0]
        exact max_eq_left h4.le
      rw [hq]
      rcases le_or_lt MIN_LIMIT
          (Int.fdiv (MIN_LIMIT + Int.fdiv (quantStep p cs t tr) 2) (quantStep p cs t tr) *
            quantStep p cs t tr) with h5 | h5
      · have hq2 : quantize MIN_LIMIT p cs t tr =
            Int.fdiv (MIN_LIMIT + Int.fdiv (quantStep p cs t tr) 2) (quantStep p cs t tr) *
              quantStep p cs t tr := by
          rw [quantize_pos_eq _ _ _ _ _ (by norm_num [MIN_LIMIT])]
          exact max_eq_right h5
        rw [hq2, quantize_fix_of_multiple _ _ _ _ _ h5]
      · have hq2 : quantize MIN_LIMIT p cs t tr = MIN_LIMIT := by
          rw [quantize_pos_eq _ _ _ _ _ (by norm_num [MIN_LIMIT])]
          exact max_eq_left h5.le
        rw [hq2, hq2]

/-! ## Smoothing blend (`PrecisionLimitController.calculate`, src/qsl/core.py
lines 246-256).  With a constant quantized limit `L`, one control tick turns
the previous emitted value `x` into `int(L*(1-f) + x*f)` when `x > 0`
(the sentinel guard `self._smooth_limit > 0`), and into `L` otherwise
(line 256 stores the unsmoothed limit). -/

/-- Phase-dependent smoothing factor (src/qsl/core.py lines 247-253). -/
def smoothFactor (phase : String) : ℚ :=
  if phase = "finish" then 0.5 else if phase = "steady" then 0.7 else 0.85

/-- One tick of the smoothing stage under a constant quantized limit `L`. -/
def smoothTick (phase : String) (L x : ℤ) : ℤ :=
  if 0 < x then
    pyInt ((L : ℚ) * (1 - smoothFactor phase) + (x : ℚ) * smoothFactor phase)
  else L

theorem smoothFactor_pos (p : String) : 0 < smoothFactor p := by
  unfold smoothFactor
  split_ifs <;> norm_num

theorem smoothFactor_lt_one (p : String) : smoothFactor p < 1 := by
  unfold smoothFactor
  split_ifs <;> norm_num

theorem pyInt_eq_floor {q : ℚ} (h : 0 ≤ q) : pyInt q = ⌊q⌋ := if_pos h

theorem smoothTick_self (p : String) (L : ℤ) (hL : 0 ≤ L) :
    smoothTick p L L = L := by
  by_cases h : 0 < L
  · rw [smoothTick, if_pos h]
    have harg : (L : ℚ) * (1 - smoothFactor p) + (L : ℚ) * smoothFactor p = (L : ℚ) := by
      ring
    rw [harg, pyInt_eq_floor (by exact_mod_cast hL), Int.floor_intCast]
  · have hz : L = 0 := le_antisymm (not_lt.mp h) hL
    rw [smoothTick, if_neg (by omega)]

theorem smoothTick_decrease (p : String) (L x : ℤ) (hL : 0 ≤ L)
    (hne : smoothTick p L x ≠ x) :
    (smoothTick p L x - L).natAbs < (x - L).natAbs := by
  by_cases hx : 0 < x
  · have hf0 : 0 < smoothFactor p := smoothFactor_pos p
    have hf1 : smoothFactor p < 1 := smoothFactor_lt_one p
    have harg : (0 : ℚ) ≤ (L : ℚ) * (1 - smoothFactor p) + (x : ℚ) * smoothFactor p := by
      have hL' : (0 : ℚ) ≤ (L : ℚ) := by exact_mod_cast hL
      have hx' : (0 : ℚ) ≤ (x : ℚ) := by exact_mod_cast hx.le
      have := hf0.le
      nlinarith
    have hval : smoothTick p L x = L + ⌊smoothFactor p * ((x - L : ℤ) : ℚ)⌋ := by
      rw [smoothTick, if_pos hx, pyInt_eq_floor harg]
      have : (L : ℚ) * (1 - smoothFactor p) + (x : ℚ) * smoothFactor p =
          (L : ℚ) + smoothFactor p * ((x - L : ℤ) : ℚ) := by
        push_cast
        ring
      rw [this, Int.floor_int_add]
    rcases lt_trichotomy (x - L) 0 with hd | hd | hd
    · have hdq : ((x - L : ℤ) : ℚ) < 0 := by exact_mod_cast hd
      have h1 : x - L ≤ ⌊smoothFactor p * ((x - L : ℤ) : ℚ)⌋ := by
        rw [Int.le_floor]
        nlinarith
      have h2 : ⌊smoothFactor p * ((x - L : ℤ) : ℚ)⌋ ≤ 0 := by
        have : smoothFactor p * ((x - L : ℤ) : ℚ) ≤ 0 := by nlinarith
        calc ⌊smoothFactor p * ((x - L : ℤ) : ℚ)⌋ ≤ ⌊(0 : ℚ)⌋ := Int.floor_le_floor this
        _ = 0 := Int.floor_zero
      have h3 : ⌊smoothFactor p * ((x - L : ℤ) : ℚ)⌋ ≠ x - L := by
        intro hc
        exact hne (by omega)
      omega
    · exact absurd (by rw [hval, hd]; push_cast; simp; omega) hne
    · have hdq : (0 : ℚ) < ((x - L : ℤ) : ℚ) := by exact_mod_cast hd
      have h1 : 0 ≤ ⌊smoothFactor p * ((x - L : ℤ) : ℚ)⌋ :=
        Int.floor_nonneg.mpr (by nlinarith)
      have h2 : ⌊smoothFactor p * ((x - L : ℤ) : ℚ)⌋ < x - L := by
        rw [Int.floor_lt]
        nlinarith
      omega
  · rw [smoothTick, if_neg hx] at hne ⊢
    omega

/-- Under constant input the smoothing blend reaches a fixed point in at
most `|x₀ - L|` ticks. -/
theorem smooth_reaches (p : String) (L : ℤ) (hL : 0 ≤ L) :
    ∀ (n : ℕ) (x : ℤ), (x - L).natAbs ≤ n →
      ∃ N ≤ n, smoothTick p L ((smoothTick p L)^[N] x) = (smoothTick p L)^[N] x := by
  intro n
  induction n with
  | zero =>
    intro x hx
    have hxL : x = L := by omega
    exact ⟨0, le_refl 0, by simpa [hxL] using smoothTick_self p L hL⟩
  | succ n ih =>
    intro x hx
    by_cases hfix : smoothTick p L x = x
    · exact ⟨0, Nat.zero_le _, by simpa using hfix⟩
    · have hdec := smoothTick_decrease p L x hL hfix
      obtain ⟨N, hN, hfix'⟩ := ih (smoothTick p L x) (by omega)
      exact ⟨N + 1, by omega, by simpa [Function.iterate_succ_apply] using hfix'⟩

/-- C3 counterexample: `AdaptiveQuantizer.quantize` is not idempotent on its
own output.  With phase `warmup`, current speed 130, target 100 (ratio 1.3,
so the step is 4096*2 = 8192) and trend 0, quantizing the raw limit 1 gives
4096, but quantizing that output again gives 8192. -/
theorem quantize_not_idempotent :
    quantize 1 "warmup" 130 100 0 = 4096 ∧
    quantize (quantize 1 "warmup" 130 100 0) "warmup" 130 100 0 = 8192 := by
  have hstep : quantStep "warmup" 130 100 0 = 8192 := by
    norm_num [quantStep, QUANT_STEPS, safe_div]
    decide
  have h1 : quantize 1 "warmup" 130 100 0 = 4096 := by
    rw [quantize_pos_eq _ _ _ _ _ (by norm_num), hstep]
    decide
  refine ⟨h1, ?_⟩
  rw [h1, quantize_pos_eq _ _ _ _ _ (by norm_num), hstep]
  decide

/-- C3 (amended): quantize is idempotent from the second application on
(its double application is always a fixed point; a single application need
not be, see `quantize_not_idempotent`), and under constant input the
smoothing blend of `PrecisionLimitController.calculate` reaches a fixed
point within `|x₀ - L|` ticks. -/
theorem quantize_and_smoothing_amended (limit : ℤ) (phase : String)
    (current_speed target trend : ℚ) (L x0 : ℤ) (hL : 0 ≤ L) :
    quantize (quantize (quantize limit phase current_speed target trend)
        phase current_speed target trend) phase current_speed target trend =
      quantize (quantize limit phase current_speed target trend)
        phase current_speed target trend ∧
    ∃ N ≤ (x0 - L).natAbs,
      smoothTick phase L ((smoothTick phase L)^[N] x0) = (smoothTick phase L)^[N] x0 :=
  ⟨quantize_triple limit phase current_speed target trend,
   smooth_reaches phase L hL (x0 - L).natAbs x0 le_rfl⟩

theorem quantize_and_smoothing_amended_witness :
    quantize (quantize (quantize 1 "warmup" 130 100 0) "warmup" 130 100 0) "warmup" 130 100 0 =
      quantize (quantize 1 "warmup" 130 100 0) "warmup" 130 100 0 ∧
    ∃ N ≤ ((0 : ℤ) - 100).natAbs,
      smoothTick "warmup" 100 ((smoothTick "warmup" 100)^[N] 0) =
        (smoothTick "warmup" 100)^[N] 0 :=
  quantize_and_smoothing_amended 1 "warmup" 130 100 0 100 0 (by norm_num)

/-- C10: a non-positive raw proposed limit passes through
`AdaptiveQuantizer.quantize` unchanged: no rounding and no minimum-limit
floor is applied. -/
theorem quantize_nonpos_passthrough (limit : ℤ) (p : String) (cs t tr : ℚ)
    (h : limit ≤ 0) : quantize limit p cs t tr = limit := by
  rw [quantize, if_pos h]

theorem quantize_nonpos_passthrough_witness :
    quantize (-1) "steady" 0 0 0 = -1 ∧ quantize 0 "finish" 5 5 0 = 0 :=
  ⟨quantize_nonpos_passthrough (-1) "steady" 0 0 0 (by norm_num),
   quantize_nonpos_passthrough 0 "finish" 5 5 0 le_rfl⟩

/-! ## Precision tracker (`PrecisionTracker`, src/qsl/core.py lines 164-199)

The phase argument of `record` ranges over the four phase strings produced
by `get_phase` (the only call site, src/main.py line 466, passes
`state.get_phase(now)`), so the phase is modelled as a four-element type and
the `_phase_adj` dictionary as a total function on it. -/

inductive Phase where
  | warmup
  | catch
  | steady
  | finish
deriving DecidableEq

structure Tracker where
  history : List (ℚ × Phase × ℚ)
  phase_adj : Phase → ℚ
  global_adj : ℚ

/-- `PrecisionTracker.__init__` (src/qsl/core.py lines 165-169); every
initial adjustment factor is 1.0 and the history window holds 30 entries. -/
def trackerInit : Tracker :=
  { history := [], phase_adj := fun _ => 1, global_adj := 1 }

/-- Ratios recorded for a phase (the `phase_data` grouping of `_update`,
src/qsl/core.py lines 178-180). -/
def ratiosOf (h : List (ℚ × Phase × ℚ)) (p : Phase) : List ℚ :=
  (h.filter fun x => x.2.1 = p).map (·.1)

/-- Per-phase factor update of `PrecisionTracker._update`
(src/qsl/core.py lines 182-190): phases with fewer than 3 recorded ratios
keep their factor (`continue`), others multiply by the threshold-selected
nudge and clamp to `[0.92, 1.08]`. -/
def phaseAdjUpdate (t : Tracker) (p : Phase) : ℚ :=
  let rs := ratiosOf t.history p
  if rs.length < 3 then t.phase_adj p
  else
    let avg := rs.sum / rs.length
    let adj : ℚ :=
      if avg > 1.005 then 0.998
      else if avg > 1.001 then 0.999
      else if avg < 0.99 then 1.002
      else if avg < 0.995 then 1.001
      else 1
    clamp (t.phase_adj p * adj) 0.92 1.08

/-- `PrecisionTracker._update` (src/qsl/core.py lines 176-195). -/
def trackerUpdate (t : Tracker) : Tracker :=
  if t.history.length < 5 then t
  else
    let all_ratios := t.history.map (·.1)
    let global_avg := all_ratios.sum / all_ratios.length
    let ga :=
      if global_avg > 1.002 then clamp (t.global_adj * 0.999) 0.95 1.05
      else if global_avg < 0.995 then clamp (t.global_adj * 1.001) 0.95 1.05
      else t.global_adj
    { t with phase_adj := fun p => phaseAdjUpdate t p, global_adj := ga }

/-- `PrecisionTracker.record` (src/qsl/core.py lines 171-174): append to the
bounded history (deque with `maxlen=30`) and rerun `_update`. -/
def trackerRecord (t : Tracker) (ratio : ℚ) (p : Phase) (now : ℚ) : Tracker :=
  let h := t.history ++ [(ratio, p, now)]
  let h := if h.length > 30 then h.drop (h.length - 30) else h
  trackerUpdate { t with history := h }

/-- A sequence of `record` calls. -/
def runTracker : Tracker → List (ℚ × Phase × ℚ) → Tracker
  | t, [] => t
  | t, r :: rs => runTracker (trackerRecord t r.1 r.2.1 r.2.2) rs

/-- `PrecisionTracker.get_adjustment` (src/qsl/core.py lines 197-199). -/
def get_adjustment (t : Tracker) (p : Phase) : ℚ :=
  t.phase_adj p * t.global_adj

/-- The clamp ranges of the tracker's adjustment factors. -/
def TrackerInv (t : Tracker) : Prop :=
  (∀ p, 0.92 ≤ t.phase_adj p ∧ t.phase_adj p ≤ 1.08) ∧
    0.95 ≤ t.global_adj ∧ t.global_adj ≤ 1.05

theorem trackerUpdate_inv (t : Tracker) (h : TrackerInv t) :
    TrackerInv (trackerUpdate t) := by
  obtain ⟨h1, h2, h3⟩ := h
  unfold trackerUpdate
  dsimp only
  split_ifs with h5 hg hg'
  · exact ⟨h1, h2, h3⟩
  · refine ⟨fun q => ?_, clamp_bounds _ _ _ (by norm_num)⟩
    unfold phaseAdjUpdate
    dsimp only
    split_ifs <;> first
      | exact h1 q
      | exact clamp_bounds _ _ _ (by norm_num)
  · refine ⟨fun q => ?_, clamp_bounds _ _ _ (by norm_num)⟩
    unfold phaseAdjUpdate
    dsimp only
    split_ifs <;> first
      | exact h1 q
      | exact clamp_bounds _ _ _ (by norm_num)
  · refine ⟨fun q => ?_, h2, h3⟩
    unfold phaseAdjUpdate
    dsimp only
    split_ifs <;> first
      | exact h1 q
      | exact clamp_bounds _ _ _ (by norm_num)

theorem trackerRecord_inv (t : Tracker) (ratio : ℚ) (p : Phase) (now : ℚ)
    (h : TrackerInv t) : TrackerInv (trackerRecord t ratio p now) := by
  unfold trackerRecord
  dsimp only
  exact trackerUpdate_inv _ h

theorem runTracker_inv (t : Tracker) (records : List (ℚ × Phase × ℚ))
    (h : TrackerInv t) : TrackerInv (runTracker t records) := by
  induction records generalizing t with
  | nil => exact h
  | cons r rs ih => exact ih _ (trackerRecord_inv t r.1 r.2.1 r.2.2 h)

/-- C5: however long or extreme the recorded ratio streak, every per-phase
adjustment factor stays in `[0.92, 1.08]`, the global factor stays in
`[0.95, 1.05]`, and `get_adjustment` stays in `[0.92*0.95, 1.08*1.05]`. -/
theorem tracker_adjustment_bounds (records : List (ℚ × Phase × ℚ)) (p : Phase) :
    (0.92 ≤ (runTracker trackerInit records).phase_adj p ∧
      (runTracker trackerInit records).phase_adj p ≤ 1.08) ∧
    (0.95 ≤ (runTracker trackerInit records).global_adj ∧
      (runTracker trackerInit records).global_adj ≤ 1.05) ∧
    (0.92 * 0.95 ≤ get_adjustment (runTracker trackerInit records) p ∧
      get_adjustment (runTracker trackerInit records) p ≤ 1.08 * 1.05) := by
  have hinit : TrackerInv trackerInit := by
    refine ⟨fun q => by norm_num [trackerInit], by norm_num [trackerInit],
      by norm_num [trackerInit]⟩
  obtain ⟨h1, h2, h3⟩ := runTracker_inv trackerInit records hinit
  obtain ⟨hp1, hp2⟩ := h1 p
  refine ⟨⟨hp1, hp2⟩, ⟨h2, h3⟩, ?_, ?_⟩
  · unfold get_adjustment
    nlinarith
  · unfold get_adjustment
    nlinarith

/-! ## Torrent state (`TorrentState`, src/qsl/core.py lines 434-634)

Only the fields read by the verified operations are modelled; the remaining
fields of the Python class (identifiers, caches, logging and notification
bookkeeping, controller sub-objects) do not enter the claims.  The raw
sample buffer of the owned `SpeedTracker` (src/qsl/core.py lines 280-300)
is inlined as `speed_samples`, each entry being
`(now, total_up, total_dl, up_speed, dl_speed)` as recorded at line 287. -/

structure TorrentState where
  cycle_start : ℚ
  cycle_start_uploaded : ℤ
  cycle_synced : Bool
  cycle_interval : ℚ
  time_added : ℚ
  publish_time : Option ℚ
  last_up_limit : ℤ
  last_dl_limit : ℤ
  last_reannounce : ℚ
  waiting_reannounce : Bool
  speed_samples : List (ℚ × ℤ × ℤ × ℚ × ℚ)

/-- A fresh `TorrentState` (the claim-relevant subset of
`TorrentState.__init__`, src/qsl/core.py lines 435-497). -/
def torrentInit : TorrentState :=
  { cycle_start := 0, cycle_start_uploaded := 0, cycle_synced := false,
    cycle_interval := 0, time_added := 0, publish_time := none,
    last_up_limit := -1, last_dl_limit := -1, last_reannounce := 0,
    waiting_reannounce := false, speed_samples := [] }

/-- `TorrentState.elapsed` (src/qsl/core.py lines 544-545). -/
def elapsed (s : TorrentState) (now : ℚ) : ℚ :=
  if s.cycle_start > 0 then max 0 (now - s.cycle_start) else 0

/-- `TorrentState.this_time` (src/qsl/core.py lines 547-548). -/
def this_time (s : TorrentState) (now : ℚ) : ℚ := elapsed s now

/-- `TorrentState.uploaded_in_cycle` (src/qsl/core.py lines 550-551). -/
def uploaded_in_cycle (s : TorrentState) (current_uploaded : ℤ) : ℤ :=
  max 0 (current_uploaded - s.cycle_start_uploaded)

/-- `TorrentState.this_up` (src/qsl/core.py lines 553-554). -/
def this_up (s : TorrentState) (current_uploaded : ℤ) : ℤ :=
  uploaded_in_cycle s current_uploaded

/-- `TorrentState.estimate_total` (src/qsl/core.py lines 556-560). -/
def estimate_total (s : TorrentState) (now tl : ℚ) : ℚ :=
  let e := elapsed s now
  if 0 < tl ∧ tl < MAX_REANNOUNCE then max 1 (e + tl)
  else if s.cycle_synced = true ∧ s.cycle_interval > 0 then max 1 s.cycle_interval
  else max 1 e

/-- C2 counterexample: a cycle-synced state whose stored interval is far
smaller than the already-elapsed time.  With `cycle_start = 1`,
`cycle_interval = 100`, `now = 1000` and `tl = 0`, the estimate is 100
while the elapsed time is 999: the invariant "duration estimate ≥ elapsed"
fails in exactly the cycle-synced out-of-horizon branch. -/
def c2State : TorrentState :=
  { torrentInit with cycle_start := 1, cycle_synced := true, cycle_interval := 100 }

theorem estimate_total_not_ge_elapsed :
    c2State.cycle_start ≤ 1000 ∧
    estimate_total c2State 1000 0 < 1000 - c2State.cycle_start := by
  constructor
  · norm_num [c2State, torrentInit]
  · norm_num [estimate_total, elapsed, c2State, torrentInit, MAX_REANNOUNCE]

/-- C2 (amended): the cycle-duration estimate is at least the elapsed time
`now - cycle_start` whenever the time-left argument lies strictly inside
the reannounce horizon `(0, MAX_REANNOUNCE)`, or the entity is not
cycle-synced with a stored positive `cycle_interval`.  In the remaining
branch the estimate is `max 1 cycle_interval`, which can be smaller than
the elapsed time (`estimate_total_not_ge_elapsed`). -/
theorem estimate_total_ge_elapsed (s : TorrentState) (now tl : ℚ)
    (hb : (0 < tl ∧ tl < MAX_REANNOUNCE) ∨
      ¬(s.cycle_synced = true ∧ s.cycle_interval > 0))
    (hs : 0 < s.cycle_start) (hnow : s.cycle_start ≤ now) :
    now - s.cycle_start ≤ estimate_total s now tl := by
  have he : elapsed s now = max 0 (now - s.cycle_start) := by
    rw [elapsed, if_pos hs]
  have he' : now - s.cycle_start ≤ elapsed s now := by
    rw [he]
    exact le_max_right _ _
  unfold estimate_total
  dsimp only
  rcases hb with hb | hb
  · rw [if_pos hb]
    have : now - s.cycle_start ≤ elapsed s now + tl := by linarith [hb.1]
    exact le_trans this (le_max_right _ _)
  · by_cases h1 : 0 < tl ∧ tl < MAX_REANNOUNCE
    · rw [if_pos h1]
      exact le_trans (by linarith [h1.1]) (le_max_right _ _)
    · rw [if_neg h1, if_neg hb]
      exact le_trans he' (le_max_right _ _)

theorem estimate_total_ge_elapsed_witness :
    ((0 : ℚ) < 50 ∧ (50 : ℚ) < MAX_REANNOUNCE ∨
      ¬(c2State.cycle_synced = true ∧ c2State.cycle_interval > 0)) ∧
    (0 : ℚ) < c2State.cycle_start ∧ c2State.cycle_start ≤ 1000 ∧
    1000 - c2State.cycle_start ≤ estimate_total c2State 1000 50 := by
  have h1 : (0 : ℚ) < 50 ∧ (50 : ℚ) < MAX_REANNOUNCE := by norm_num [MAX_REANNOUNCE]
  have h2 : (0 : ℚ) < c2State.cycle_start := by norm_num [c2State, torrentInit]
  have h3 : c2State.cycle_start ≤ (1000 : ℚ) := by norm_num [c2State, torrentInit]
  exact ⟨Or.inl h1, h2, h3, estimate_total_ge_elapsed c2State 1000 50 (Or.inl h1) h2 h3⟩

/-! ## Download limiter (`DownloadLimiter.calc_dl_limit`, src/qsl/core.py
lines 306-346) -/

/-- `DownloadLimiter.calc_dl_limit` (src/qsl/core.py lines 307-346).
Python `1.5` is the exact rational 3/2 here; `int(...)` is `pyInt`. -/
def calc_dl_limit (state : TorrentState) (total_uploaded total_done total_size eta : ℤ)
    (up_speed dl_speed now : ℚ) : ℤ × String :=
  let this_up' := this_up state total_uploaded
  let this_time' := this_time state now
  if this_time' < 2 then (-1, "")
  else
    let avg_speed := (this_up' : ℚ) / this_time'
    if avg_speed ≤ SPEED_LIMIT then
      if state.last_dl_limit > 0 then (-1, "均值恢复") else (-1, "")
    else
      let remaining := total_size - total_done
      if remaining ≤ 0 then (-1, "")
      else
        let min_time := DL_LIMIT_MIN_TIME * (if state.last_up_limit > 0 then 2 else 1)
        if state.last_dl_limit ≤ 0 then
          if 0 < eta ∧ eta ≤ min_time then
            let denominator := (this_up' : ℚ) / SPEED_LIMIT - this_time' + DL_LIMIT_BUFFER
            if denominator ≤ 0 then (DL_LIMIT_MIN, "超速严重")
            else
              let dl_limit := (remaining : ℚ) / denominator / 1024
              (max DL_LIMIT_MIN (pyInt dl_limit), "均值超限")
          else (-1, "")
        else
          if avg_speed ≥ SPEED_LIMIT then
            if dl_speed / 1024 < 2 * (state.last_dl_limit : ℚ) then
              let denominator :=
                (this_up' : ℚ) / SPEED_LIMIT - this_time' + DL_LIMIT_ADJUST_BUFFER
              if denominator ≤ 0 then (DL_LIMIT_MIN, "超速严重")
              else
                let new_limit := (remaining : ℚ) / denominator / 1024
                let new_limit := min new_limit 512000
                let new_limit :=
                  if new_limit > 1.5 * (state.last_dl_limit : ℚ) then
                    1.5 * (state.last_dl_limit : ℚ)
                  else if new_limit < (state.last_dl_limit : ℚ) then new_limit / 1.5
                  else new_limit
                (max DL_LIMIT_MIN (pyInt new_limit), "调整中")
            else (state.last_dl_limit, "保持")
          else (-1, "均值恢复")

/-- C4 counterexample state: an active download limit
(`last_dl_limit = 1000 > 0`) and a cycle that started at time 1. -/
def c4State : TorrentState :=
  { torrentInit with cycle_start := 1, last_dl_limit := 1000 }

/-- C4 counterexample: at `now = 11` the elapsed time is 10 ≥ 2 and the
cycle-average upload rate is 0 ≤ `SPEED_LIMIT`, yet with an active download
limit the returned reason is the non-empty recovery marker, not the empty
string the claim asserts. -/
theorem calc_dl_limit_reason_nonempty :
    2 ≤ this_time c4State 11 ∧
    (this_up c4State 0 : ℚ) / this_time c4State 11 ≤ SPEED_LIMIT ∧
    (calc_dl_limit c4State 0 0 0 0 0 0 11).2 ≠ "" := by
  have h1 : this_time c4State 11 = 10 := by
    norm_num [this_time, elapsed, c4State, torrentInit]
  have h2 : this_up c4State 0 = 0 := by
    norm_num [this_up, uploaded_in_cycle, c4State, torrentInit]
  have h3 : calc_dl_limit c4State 0 0 0 0 0 0 11 = (-1, "均值恢复") := by
    unfold calc_dl_limit
    rw [h1, h2]
    norm_num [SPEED_LIMIT, c4State, torrentInit]
  refine ⟨by rw [h1]; norm_num, by rw [h1, h2]; norm_num [SPEED_LIMIT], ?_⟩
  rw [h3]
  decide

/-- C4 (amended): whenever the cycle has run for at least 2 seconds and the
cycle-average upload rate is at or below the external ceiling,
`calc_dl_limit` returns the unrestricted sentinel `-1`; the reason string is
empty when no download limit is active and is the recovery marker
`"均值恢复"` when one is (`last_dl_limit > 0`). -/
theorem calc_dl_limit_below_ceiling (s : TorrentState) (tu td ts eta : ℤ)
    (us ds now : ℚ) (h2 : 2 ≤ this_time s now)
    (havg : (this_up s tu : ℚ) / this_time s now ≤ SPEED_LIMIT) :
    calc_dl_limit s tu td ts eta us ds now =
      (-1, if s.last_dl_limit > 0 then "均值恢复" else "") := by
  unfold calc_dl_limit
  dsimp only
  rw [if_neg (not_lt.mpr h2), if_pos havg]
  split_ifs <;> rfl

theorem calc_dl_limit_below_ceiling_witness :
    2 ≤ this_time c4State 11 ∧
    (this_up c4State 0 : ℚ) / this_time c4State 11 ≤ SPEED_LIMIT ∧
    calc_dl_limit c4State 0 0 0 0 0 0 11 =
      (-1, if c4State.last_dl_limit > 0 then "均值恢复" else "") := by
  have h1 : this_time c4State 11 = 10 := by
    norm_num [this_time, elapsed, c4State, torrentInit]
  have h2 : (2 : ℚ) ≤ this_time c4State 11 := by rw [h1]; norm_num
  have h3 : (this_up c4State 0 : ℚ) / this_time c4State 11 ≤ SPEED_LIMIT := by
    rw [h1]
    norm_num [this_up, uploaded_in_cycle, c4State, torrentInit, SPEED_LIMIT]
  exact ⟨h2, h3, calc_dl_limit_below_ceiling c4State 0 0 0 0 0 0 11 h2 h3⟩

/-- Division that fails (returns `none`) when the denominator is exactly
zero — the only way a Python float division can raise. -/
def checkedDiv (a b : ℚ) : Option ℚ :=
  if b = 0 then none else some (a / b)

/-- `calc_dl_limit` with every division routed through `checkedDiv`: the
computation aborts with `none` if any division in the corresponding Python
expression would raise. -/
def calc_dl_limit_checked (state : TorrentState)
    (total_uploaded total_done total_size eta : ℤ)
    (up_speed dl_speed now : ℚ) : Option (ℤ × String) :=
  let this_up' := this_up state total_uploaded
  let this_time' := this_time state now
  if this_time' < 2 then some (-1, "")
  else
    (checkedDiv (this_up' : ℚ) this_time').bind fun avg_speed =>
    if avg_speed ≤ SPEED_LIMIT then
      if state.last_dl_limit > 0 then some (-1, "均值恢复") else some (-1, "")
    else
      let remaining := total_size - total_done
      if remaining ≤ 0 then some (-1, "")
      else
        let min_time := DL_LIMIT_MIN_TIME * (if state.last_up_limit > 0 then 2 else 1)
        if state.last_dl_limit ≤ 0 then
          if 0 < eta ∧ eta ≤ min_time then
            (checkedDiv (this_up' : ℚ) SPEED_LIMIT).bind fun q =>
            let denominator := q - this_time' + DL_LIMIT_BUFFER
            if denominator ≤ 0 then some (DL_LIMIT_MIN, "超速严重")
            else
              (checkedDiv (remaining : ℚ) denominator).bind fun r =>
              (checkedDiv r 1024).bind fun dl_limit =>
              some (max DL_LIMIT_MIN (pyInt dl_limit), "均值超限")
          else some (-1, "")
        else
          if avg_speed ≥ SPEED_LIMIT then
            (checkedDiv dl_speed 1024).bind fun ds1024 =>
            if ds1024 < 2 * (state.last_dl_limit : ℚ) then
              (checkedDiv (this_up' : ℚ) SPEED_LIMIT).bind fun q =>
              let denominator := q - this_time' + DL_LIMIT_ADJUST_BUFFER
              if denominator ≤ 0 then some (DL_LIMIT_MIN, "超速严重")
              else
                (checkedDiv (remaining : ℚ) denominator).bind fun r =>
                (checkedDiv r 1024).bind fun nl0 =>
                let new_limit := min nl0 512000
                if new_limit > 1.5 * (state.last_dl_limit : ℚ) then
                  some (max DL_LIMIT_MIN (pyInt (1.5 * (state.last_dl_limit : ℚ))), "调整中")
                else if new_limit < (state.last_dl_limit : ℚ) then
                  (checkedDiv new_limit 1.5).bind fun nl1 =>
                  some (max DL_LIMIT_MIN (pyInt nl1), "调整中")
                else
                  some (max DL_LIMIT_MIN (pyInt new_limit), "调整中")
            else some (state.last_dl_limit, "保持")
          else some (-1, "均值恢复")

theorem checkedDiv_of_ne (a b : ℚ) (h : b ≠ 0) : checkedDiv a b = some (a / b) := by
  rw [checkedDiv, if_neg h]

/-- C7: `calc_dl_limit` is total — every division it performs has a nonzero
denominator on the path where it executes (the checked computation never
aborts and agrees with the unchecked one) — and on the fresh-limit path the
result floors at the strictest minimum cap `DL_LIMIT_MIN` exactly when the
arithmetic denominator `this_up / SPEED_LIMIT - this_time + buffer` is
non-positive. -/
theorem calc_dl_limit_total (s : TorrentState) (tu td ts eta : ℤ) (us ds now : ℚ) :
    calc_dl_limit_checked s tu td ts eta us ds now =
      some (calc_dl_limit s tu td ts eta us ds now) ∧
    (¬ this_time s now < 2 →
     ¬ ((this_up s tu : ℚ) / this_time s now ≤ SPEED_LIMIT) →
     ¬ ((ts - td : ℤ) ≤ 0) →
     s.last_dl_limit ≤ 0 →
     0 < eta ∧ eta ≤ DL_LIMIT_MIN_TIME * (if s.last_up_limit > 0 then 2 else 1) →
     calc_dl_limit s tu td ts eta us ds now =
       if (this_up s tu : ℚ) / SPEED_LIMIT - this_time s now + DL_LIMIT_BUFFER ≤ 0 then
         (DL_LIMIT_MIN, "超速严重")
       else
         (max DL_LIMIT_MIN (pyInt (((ts - td : ℤ) : ℚ) /
            ((this_up s tu : ℚ) / SPEED_LIMIT - this_time s now + DL_LIMIT_BUFFER) / 1024)),
          "均值超限")) := by
  have hSL : SPEED_LIMIT ≠ 0 := by norm_num [SPEED_LIMIT]
  have h1024 : (1024 : ℚ) ≠ 0 := by norm_num
  constructor
  · unfold calc_dl_limit_checked calc_dl_limit
    dsimp only
    by_cases h1 : this_time s now < 2
    · rw [if_pos h1, if_pos h1]
    · rw [if_neg h1, if_neg h1]
      have ht0 : this_time s now ≠ 0 := by
        intro hc
        rw [hc] at h1
        exact h1 (by norm_num)
      rw [checkedDiv_of_ne _ _ ht0, Option.some_bind]
      by_cases h2 : (this_up s tu : ℚ) / this_time s now ≤ SPEED_LIMIT
      · rw [if_pos h2, if_pos h2]
        split_ifs <;> rfl
      · rw [if_neg h2, if_neg h2]
        by_cases h3 : (ts - td : ℤ) ≤ 0
        · rw [if_pos h3, if_pos h3]
        · rw [if_neg h3, if_neg h3]
          by_cases h4 : s.last_dl_limit ≤ 0
          · rw [if_pos h4, if_pos h4]
            by_cases h5 : 0 < eta ∧
                eta ≤ DL_LIMIT_MIN_TIME * (if s.last_up_limit > 0 then 2 else 1)
            · rw [if_pos h5, if_pos h5, checkedDiv_of_ne _ _ hSL, Option.some_bind]
              by_cases h6 : (this_up s tu : ℚ) / SPEED_LIMIT - this_time s now +
                  DL_LIMIT_BUFFER ≤ 0
              · rw [if_pos h6, if_pos h6]
              · rw [if_neg h6, if_neg h6,
                    checkedDiv_of_ne _ _ (fun hc => h6 (le_of_eq hc)),
                    Option.some_bind, checkedDiv_of_ne _ _ h1024, Option.some_bind]
            · rw [if_neg h5, if_neg h5]
          · rw [if_neg h4, if_neg h4]
            by_cases h7 : (this_up s tu : ℚ) / this_time s now ≥ SPEED_LIMIT
            · rw [if_pos h7, if_pos h7, checkedDiv_of_ne _ _ h1024, Option.some_bind]
              by_cases h8 : ds / 1024 < 2 * (s.last_dl_limit : ℚ)
              · rw [if_pos h8, if_pos h8, checkedDiv_of_ne _ _ hSL, Option.some_bind]
                by_cases h9 : (this_up s tu : ℚ) / SPEED_LIMIT - this_time s now +
                    DL_LIMIT_ADJUST_BUFFER ≤ 0
                · rw [if_pos h9, if_pos h9]
                · rw [if_neg h9, if_neg h9,
                      checkedDiv_of_ne _ _ (fun hc => h9 (le_of_eq hc)),
                      Option.some_bind, checkedDiv_of_ne _ _ h1024, Option.some_bind]
                  by_cases h10 : min (((ts - td : ℤ) : ℚ) /
                      ((this_up s tu : ℚ) / SPEED_LIMIT - this_time s now +
                        DL_LIMIT_ADJUST_BUFFER) / 1024) 512000 >
                      1.5 * (s.last_dl_limit : ℚ)
                  · rw [if_pos h10, if_pos h10]
                  · rw [if_neg h10, if_neg h10]
                    by_cases h11 : min (((ts - td : ℤ) : ℚ) /
                        ((this_up s tu : ℚ) / SPEED_LIMIT - this_time s now +
                          DL_LIMIT_ADJUST_BUFFER) / 1024) 512000 <
                        (s.last_dl_limit : ℚ)
                    · rw [if_pos h11, if_pos h11,
                          checkedDiv_of_ne _ _ (by norm_num : (1.5 : ℚ) ≠ 0),
                          Option.some_bind]
                    · rw [if_neg h11, if_neg h11]
              · rw [if_neg h8, if_neg h8]
            · rw [if_neg h7, if_neg h7]
  · intro h1 h2 h3 h4 h5
    unfold calc_dl_limit
    dsimp only
    rw [if_neg h1, if_neg h2, if_neg h3, if_pos h4, if_pos h5]

theorem calc_dl_limit_total_witness :
    (calc_dl_limit_checked { torrentInit with cycle_start := 1 }
        10000000000000 0 1000 10 0 0 101 =
      some (calc_dl_limit { torrentInit with cycle_start := 1 }
        10000000000000 0 1000 10 0 0 101)) ∧
    calc_dl_limit { torrentInit with cycle_start := 1 } 10000000000000 0 1000 10 0 0 101 =
      (if (this_up { torrentInit with cycle_start := 1 } 10000000000000 : ℚ) / SPEED_LIMIT -
          this_time { torrentInit with cycle_start := 1 } 101 + DL_LIMIT_BUFFER ≤ 0 then
        (DL_LIMIT_MIN, "超速严重")
      else
        (max DL_LIMIT_MIN (pyInt ((((1000 : ℤ) - (0 : ℤ) : ℤ) : ℚ) /
           ((this_up { torrentInit with cycle_start := 1 } 10000000000000 : ℚ) / SPEED_LIMIT -
             this_time { torrentInit with cycle_start := 1 } 101 + DL_LIMIT_BUFFER) / 1024)),
         "均值超限")) := by
  have hup : this_up { torrentInit with cycle_start := 1 } 10000000000000 =
      10000000000000 := by
    norm_num [this_up, uploaded_in_cycle, torrentInit]
  have htime : this_time { torrentInit with cycle_start := 1 } 101 = 100 := by
    norm_num [this_time, elapsed, torrentInit]
  have h := calc_dl_limit_total { torrentInit with cycle_start := 1 }
    10000000000000 0 1000 10 0 0 101
  refine ⟨h.1, h.2 ?_ ?_ ?_ ?_ ?_⟩
  · rw [htime]; norm_num
  · rw [hup, htime]; norm_num [SPEED_LIMIT]
  · norm_num
  · norm_num [torrentInit]
  · norm_num [torrentInit, DL_LIMIT_MIN_TIME]

/-! ## Reannounce optimizer (`ReannounceOptimizer.should_reannounce`,
src/qsl/core.py lines 352-390) -/

/-- `SpeedTracker.get_avg_speeds` (src/qsl/core.py lines 289-297).  The
Python method reads the wall clock (`wall_time()`), passed here explicitly
as `wall`.  A sample is `(now, total_up, total_dl, up_speed, dl_speed)`. -/
def get_avg_speeds (samples : List (ℚ × ℤ × ℤ × ℚ × ℚ)) (wall window : ℚ) : ℚ × ℚ :=
  let samples := samples.filter fun x => wall - x.1 ≤ window
  if samples.length < 2 then (0, 0)
  else
    match samples.head?, samples.getLast? with
    | some first, some last =>
      let dt := last.1 - first.1
      if dt ≤ 0 then (0, 0)
      else
        (safe_div ((last.2.1 - first.2.1 : ℤ) : ℚ) dt 0,
         safe_div ((last.2.2.1 - first.2.2.1 : ℤ) : ℚ) dt 0)
    | _, _ => (0, 0)

/-- `estimate_announce_interval` (src/qsl/utils.py lines 149-153); the
Python function reads `time.time()`, passed here as `wall`. -/
def estimate_announce_interval (wall time_ref : ℚ) : ℤ :=
  let age := wall - time_ref
  if age < 7 * 86400 then ANNOUNCE_INTERVAL_NEW
  else if age < 30 * 86400 then ANNOUNCE_INTERVAL_WEEK
  else ANNOUNCE_INTERVAL_OLD

/-- `TorrentState.get_announce_interval` (src/qsl/core.py lines 536-542).
The Python truthiness test `self._publish_time and self._publish_time > 0`
is `publish_time ≠ none` together with `publish_time > 0`. -/
def get_announce_interval (s : TorrentState) (wall : ℚ) : ℤ :=
  match s.publish_time with
  | some pt =>
    if pt > 0 then estimate_announce_interval wall pt
    else if s.time_added > 0 then estimate_announce_interval wall s.time_added
    else ANNOUNCE_INTERVAL_NEW
  | none =>
    if s.time_added > 0 then estimate_announce_interval wall s.time_added
    else ANNOUNCE_INTERVAL_NEW

/-- `ReannounceOptimizer.should_reannounce` (src/qsl/core.py lines 353-390).
The returned pair is the Python return value; the extra boolean is the
updated `state.waiting_reannounce` flag (mutated at line 388). -/
def should_reannounce (s : TorrentState) (total_uploaded total_done total_size : ℤ)
    (up_speed dl_speed now wall : ℚ) : (Bool × String) × Bool :=
  let w := s.waiting_reannounce
  if s.last_reannounce > 0 ∧ now - s.last_reannounce < REANNOUNCE_MIN_INTERVAL then
    ((false, ""), w)
  else
    let this_up' := this_up s total_uploaded
    let this_time' := this_time s now
    if this_time' < 30 then ((false, ""), w)
    else
      let avgs := get_avg_speeds s.speed_samples wall REANNOUNCE_SPEED_SAMPLES
      if avgs.1 ≤ SPEED_LIMIT ∨ avgs.2 ≤ 0 then ((false, ""), w)
      else
        let remaining := total_size - total_done
        if remaining ≤ 0 then ((false, ""), w)
        else
          let announce_interval := get_announce_interval s wall
          let complete_time := (remaining : ℚ) / avgs.2 + now
          let perfect_time := complete_time - (announce_interval : ℚ) * SPEED_LIMIT / avgs.1
          let earliest :=
            if (this_up' : ℚ) / this_time' > SPEED_LIMIT then
              ((this_up' : ℚ) - SPEED_LIMIT * this_time') / (45 * 1024 * 1024) + now
            else now
          if earliest - (now - this_time') < REANNOUNCE_MIN_INTERVAL then ((false, ""), w)
          else if earliest > perfect_time then
            if now ≥ earliest then
              if (this_up' : ℚ) / this_time' > SPEED_LIMIT then ((true, "优化汇报"), w)
              else ((false, ""), w)
            else
              if earliest < perfect_time + 60 then ((false, "等待汇报"), true)
              else ((false, ""), w)
          else ((false, ""), w)

/-- C9: whenever the elapsed cycle time is under 30 seconds,
`should_reannounce` returns `(False, "")` — it never fires a resync —
regardless of all byte counters and speed inputs. -/
theorem reannounce_below_min_time (s : TorrentState) (tu td ts : ℤ)
    (us ds now wall : ℚ) (h : this_time s now < 30) :
    (should_reannounce s tu td ts us ds now wall).1 = (false, "") := by
  unfold should_reannounce
  dsimp only
  by_cases h1 : s.last_reannounce > 0 ∧ now - s.last_reannounce < REANNOUNCE_MIN_INTERVAL
  · rw [if_pos h1]
  · rw [if_neg h1, if_pos h]

theorem reannounce_below_min_time_witness :
    this_time torrentInit 10 < 30 ∧
    (should_reannounce torrentInit 0 0 0 0 0 10 5).1 = (false, "") := by
  have h : this_time torrentInit 10 < 30 := by
    norm_num [this_time, elapsed, torrentInit]
  exact ⟨h, reannounce_below_min_time torrentInit 0 0 0 0 0 10 5 h⟩

end QSL
